import Mathlib

/-!
Shallow embedding of the django-cms excerpt (`cms/models/query.py` and
`cms/models/titlemodels.py`) together with proofs of the specification's
claims about it.

Modelling conventions:
* Database rows are Lean structures; a queryset is a `List` of rows.
* Django `NULL` / Python `None` is `Option.none`; nullable text columns and
  Python attributes that may transiently hold `None` are `Option String`.
* Timestamps are integers (seconds); `timezone.now()` is a `now : Int`
  parameter threaded explicitly.
* Raised exceptions are modelled with `Except`; a caught exception is a
  handled branch.
* External collaborators (the current-site resolver, the language fallback
  chain `get_fallback_languages`, the advanced-settings permission check and
  the persisted database state) are explicit parameters, as the spec says
  they are injected policy.
-/

namespace Cms

/-- Modelled from the spec: the `Page` model itself (`cms.models.Page`) is not
part of this excerpt; only its querysets are.  §3 of the spec describes it as a
hierarchical node (`parent`), site-scoped (`site`), carrying `publication_date`
and `publication_end_date`, with a hierarchical `path` used by
`get_home`'s `order_by("path")` and an id used as foreign-key target of
`Title.page`. -/
structure Page where
  id : Nat
  parent_id : Option Nat
  site : Option Nat
  publication_date : Option Int
  publication_end_date : Option Int
  path : String
deriving DecidableEq, Repr

/-- The `Title` model of `titlemodels.py` (fields actually read or written by
the excerpt).  Text columns are `Option String`: several are `null=True`, and
`setattr` from form data can put `None` into any of them.  `page` holds the
owning page's id (the foreign key), `pk` is the primary key (`none` while the
row is unsaved). -/
structure Title where
  pk : Option Nat
  language : String
  title : Option String
  page_title : Option String
  menu_title : Option String
  meta_description : Option String
  slug : Option String
  path : Option String
  has_url_overwrite : Bool
  redirect : Option String
  page : Nat
  published : Bool
  publisher_is_draft : Bool
  publisher_state : Int
deriving DecidableEq, Repr

/-- Modelled from the spec: `PUBLISHER_STATE_DIRTY` is imported from
`cms.constants`, which is not part of this excerpt.  The spec (§4.3, glossary)
only describes a two-valued {default, dirty} state with default `0`; the
concrete dirty value is irrelevant to every claim, we fix it to `1`. -/
def PUBLISHER_STATE_DIRTY : Int := 1

/-! ## `cms/models/query.py` : `PageQuerySet` -/

/-- `PageQuerySet.on_site(site=None)` (query.py:11-24).  `current` is the
result of `Site.objects.get_current()`: `some c` on success, `none` when it
raises `Site.DoesNotExist` (the caught branch sets `site = None`, i.e. a
null-site filter). -/
def on_site (pages : List Page) (current : Option Nat) (site : Option Nat) :
    List Page :=
  let s : Option Nat :=
    match site with
    | some s => some s
    | none => current
  pages.filter (fun p => p.site == s)

/-- `PageQuerySet.all_root()` (query.py:26-31): pages with `parent__isnull=True`. -/
def all_root (pages : List Page) : List Page :=
  pages.filter (fun p => p.parent_id == none)

/-- The time-window conjunct of `PageQuerySet.published` (query.py:36-37):
`publication_date` null or `<= now`, and `publication_end_date` null or
`> now`. -/
def timeWindowOpen (p : Page) (now : Int) : Bool :=
  (match p.publication_date with
   | none => true
   | some d => decide (d ≤ now)) &&
  (match p.publication_end_date with
   | none => true
   | some d => decide (now < d))

/-- `PageQuerySet.published(language=None, site=None)` (query.py:33-47).
`titles` is the `Title` table backing the `title_set` reverse relation; the
`title_set__…` conditions of a single `filter` call demand one title row
satisfying all of them. -/
def published (pages : List Page) (titles : List Title) (now : Int)
    (current : Option Nat) (language : Option String) (site : Option Nat) :
    List Page :=
  match language with
  | some lang =>
      (on_site pages current site).filter (fun p =>
        timeWindowOpen p now &&
        titles.any (fun t => t.page == p.id && t.published && t.language == lang))
  | none =>
      (on_site pages current site).filter (fun p =>
        timeWindowOpen p now &&
        titles.any (fun t => t.page == p.id && t.published))

/-- `order_by("path")[0]` of a list of pages: the element minimal for the
`path` order, earliest on ties; `none` exactly on the empty list (the
`IndexError` branch). -/
def firstByPath : List Page → Option Page
  | [] => none
  | p :: ps =>
      match firstByPath ps with
      | none => some p
      | some q => if q.path < p.path then some q else some p

/-- `PageQuerySet.get_home(site=None)` (query.py:49-54): first published root
page by `path`, or the `NoHomeFound` error. -/
def get_home (pages : List Page) (titles : List Title) (now : Int)
    (current : Option Nat) (site : Option Nat) : Except String Page :=
  match firstByPath (all_root (published pages titles now current none site)) with
  | none => .error "No Root page found. Publish at least one page!"
  | some home => .ok home

/-! ## `cms/models/titlemodels.py` : `TitleManager` -/

/-- The exact lookup `self.get(language=language, page=page)` of
`TitleManager.get_title` (titlemodels.py:26) over the `Title` table: `none` is
the `Title.DoesNotExist` case.  The model's `unique_together = (('language',
'page'),)` makes the match unique, so returning the first one is faithful. -/
def managerGet (titles : List Title) (pageId : Nat) (language : String) :
    Option Title :=
  titles.find? (fun t => t.language == language && t.page == pageId)

/-- The fallback scan of `TitleManager.get_title` (titlemodels.py:33-37):
`for lang in fallbacks: for title in titles: if lang == title.language:
return title`, then `return None`. -/
def findFirstFallback (pageTitles : List Title) : List String → Option Title
  | [] => none
  | lang :: rest =>
      match pageTitles.find? (fun t => t.language == lang) with
      | some t => some t
      | none => findFirstFallback pageTitles rest

/-- `TitleManager.get_title(page, language, language_fallback=False)`
(titlemodels.py:17-42).  `fallbacks` is `cms.utils.i18n.get_fallback_languages`
(injected policy, per spec §6).  `.error ()` is the re-raised
`Title.DoesNotExist`; `.ok none` the `None` sentinel. -/
def get_title (titles : List Title) (fallbacks : String → List String)
    (pageId : Nat) (language : String) (language_fallback : Bool) :
    Except Unit (Option Title) :=
  match managerGet titles pageId language with
  | some t => .ok (some t)
  | none =>
      if language_fallback then
        .ok (findFirstFallback (titles.filter (fun t => t.page == pageId))
              (fallbacks language))
      else
        .error ()

/-- `TitleManager.public()` (titlemodels.py:45-46):
`filter(publisher_is_draft=False, published=True)`. -/
def publicTitles (titles : List Title) : List Title :=
  titles.filter (fun t => !t.publisher_is_draft && t.published)

/-- `TitleManager.drafts()` (titlemodels.py:48-49):
`filter(publisher_is_draft=True)`. -/
def drafts (titles : List Title) : List Title :=
  titles.filter (fun t => t.publisher_is_draft)

/-! ## `TitleManager.set_or_create`, update branch -/

/-- A bound form as `set_or_create` sees it: `base_fields` is the form class's
declared-field set (`form.base_fields`), `cleaned_data` the cleaned submitted
data, an association from field name to a value that may itself be `None`. -/
structure Form where
  base_fields : List String
  cleaned_data : List (String × Option String)

/-- Python `cleaned_data.get(name, None)`. -/
def cdGet (cleaned_data : List (String × Option String)) (name : String) :
    Option String :=
  (cleaned_data.lookup name).join

/-- Python `name in cleaned_data`. -/
def cdHas (cleaned_data : List (String × Option String)) (name : String) :
    Bool :=
  (cleaned_data.lookup name).isSome

/-- Python truthiness of a cleaned string value: `None` and `""` are falsy. -/
def pyTruthy (v : Option String) : Bool :=
  match v with
  | none => false
  | some s => s != ""

/-- The `base_fields` list of `set_or_create` (titlemodels.py:55-61). -/
def base_fields : List String :=
  ["slug", "title", "meta_description", "page_title", "menu_title"]

/-- The `advanced_fields` list of `set_or_create` (titlemodels.py:62-64). -/
def advanced_fields : List String :=
  ["redirect"]

/-- `setattr(obj, name, value)` for the field names `set_or_create` uses. -/
def setTitleAttr (t : Title) (name : String) (v : Option String) : Title :=
  match name with
  | "slug" => { t with slug := v }
  | "title" => { t with title := v }
  | "meta_description" => { t with meta_description := v }
  | "page_title" => { t with page_title := v }
  | "menu_title" => { t with menu_title := v }
  | "redirect" => { t with redirect := v }
  | _ => t

/-- One iteration of the update loops of `set_or_create`
(titlemodels.py:86-89 and 95-98): `if name in form.base_fields:
setattr(obj, name, cleaned_data.get(name, None))`. -/
def updStep (form : Form) (obj : Title) (name : String) : Title :=
  if name ∈ form.base_fields then
    setTitleAttr obj name (cdGet form.cleaned_data name)
  else obj

/-- The update branch of `TitleManager.set_or_create` (titlemodels.py:86-100),
taken when a `Title` for `(page, language)` already exists: the state of `obj`
just before `obj.save()`.  `hasAdvPerm` is
`page.has_advanced_settings_permission(request)` (injected permission check,
spec §6). -/
def set_or_create_update (hasAdvPerm : Bool) (form : Form) (obj : Title) :
    Title :=
  let obj1 := base_fields.foldl (updStep form) obj
  if hasAdvPerm then
    let obj2 :=
      if cdHas form.cleaned_data "overwrite_url" then
        let overwrite_url := cdGet form.cleaned_data "overwrite_url"
        { obj1 with
            has_url_overwrite := pyTruthy overwrite_url
            path := overwrite_url }
      else obj1
    advanced_fields.foldl (updStep form) obj2
  else obj1

/-! ## `Title` instance methods -/

/-- Python `u'%s' % v` for a value that may be `None`. -/
def pyStr (v : Option String) : String :=
  match v with
  | some s => s
  | none => "None"

/-- `Title.update_path()` (titlemodels.py:138-148).  `page` is `self.page`;
`allTitles` backs `Title.objects`; `fallbacks` as in `get_title`.  A present
`parent_id` is a nonzero pk, hence truthy. -/
def update_path (t : Title) (page : Page) (allTitles : List Title)
    (fallbacks : String → List String) : Title :=
  let slug := pyStr t.slug
  if !t.has_url_overwrite then
    let t1 := { t with path := some slug }
    match page.parent_id with
    | some parentId =>
        match get_title allTitles fallbacks parentId t.language true with
        | .ok (some parent_title) =>
            { t1 with path := some (pyStr parent_title.path ++ "/" ++ slug) }
        | _ => t1
    | none => t1
  else t

/-- `Title.is_new_dirty()` (titlemodels.py:184-199).  `db` is the persisted
table keyed by pk (`Title.objects.get(pk=…)`; `none` is the
`Title.DoesNotExist` branch). -/
def is_new_dirty (db : Nat → Option Title) (t : Title) : Bool :=
  match t.pk with
  | none => true
  | some pk =>
      match db pk with
      | none => true
      | some old =>
          !(old.title == t.title && old.page_title == t.page_title &&
            old.menu_title == t.menu_title &&
            old.meta_description == t.meta_description &&
            old.slug == t.slug &&
            old.has_url_overwrite == t.has_url_overwrite &&
            old.redirect == t.redirect)

/-- `Title.save_base` (titlemodels.py:162-182): the in-memory state of
`(self, self.page)` passed on to `super().save_base` for persisting.
`keep_state` is the truthiness of the transient `_publisher_keep_state`
attribute; `timedelta(seconds=5)` is `5` on our integer timeline. -/
def save_base (t : Title) (page : Page) (db : Nat → Option Title)
    (keep_state : Bool) (now : Int) : Title × Page :=
  let page' :=
    if page.publication_date == none && t.published then
      { page with publication_date := some (now - 5) }
    else page
  let t' :=
    if t.publisher_is_draft && !keep_state && is_new_dirty db t then
      { t with publisher_state := PUBLISHER_STATE_DIRTY }
    else t
  (t', page')

/-! ## Concrete sample rows (used by witnesses and counterexamples) -/

/-- A root page on no site with open publication window. -/
def pRoot : Page :=
  { id := 1, parent_id := none, site := none, publication_date := none,
    publication_end_date := none, path := "root" }

/-- A child page of `pRoot`. -/
def pChild : Page :=
  { id := 2, parent_id := some 1, site := none, publication_date := none,
    publication_end_date := none, path := "root/child" }

/-- A published draft English title on page 1. -/
def tEn : Title :=
  { pk := some 10, language := "en", title := some "Home",
    page_title := none, menu_title := none, meta_description := none,
    slug := some "home", path := some "home", has_url_overwrite := false,
    redirect := none, page := 1, published := true,
    publisher_is_draft := true, publisher_state := 0 }

/-- A non-draft, non-published title (public-side shadow of unpublished
content). -/
def tPubUnpublished : Title :=
  { pk := some 11, language := "en", title := some "Hidden",
    page_title := none, menu_title := none, meta_description := none,
    slug := some "hidden", path := some "hidden", has_url_overwrite := false,
    redirect := none, page := 1, published := false,
    publisher_is_draft := false, publisher_state := 0 }

/-- A fallback-chain resolver that maps every language to `["en"]`. -/
def fbEn : String → List String := fun _ => ["en"]

/-! ## Theorems -/

/-- The time-window test of `published`, as a proposition. -/
theorem timeWindowOpen_iff (p : Page) (now : Int) :
    timeWindowOpen p now = true ↔
      ((p.publication_date = none ∨ ∃ d, p.publication_date = some d ∧ d ≤ now) ∧
       (p.publication_end_date = none ∨
         ∃ d, p.publication_end_date = some d ∧ now < d)) := by
  unfold timeWindowOpen
  rcases p.publication_date with _ | d <;>
    rcases p.publication_end_date with _ | e <;> simp

/-- C1: a page is in `published(language, site)` iff it passes `on_site`
filtering, its `publication_date` is null or not after `now`, its
`publication_end_date` is null or strictly after `now`, and some title of the
page is published — of the given language when one is supplied. -/
theorem published_mem_iff (pages : List Page) (titles : List Title) (now : Int)
    (current : Option Nat) (language : Option String) (site : Option Nat)
    (p : Page) :
    p ∈ published pages titles now current language site ↔
      (p ∈ on_site pages current site ∧
       (p.publication_date = none ∨ ∃ d, p.publication_date = some d ∧ d ≤ now) ∧
       (p.publication_end_date = none ∨
         ∃ d, p.publication_end_date = some d ∧ now < d) ∧
       ∃ t ∈ titles, t.page = p.id ∧ t.published = true ∧
         ∀ lang, language = some lang → t.language = lang) := by
  rcases language with _ | lang <;>
    · simp only [published, List.mem_filter, Bool.and_eq_true, List.any_eq_true,
        timeWindowOpen_iff, beq_iff_eq]
      constructor
      · rintro ⟨hmem, ⟨hd, he⟩, t, ht, hcond⟩
        exact ⟨hmem, hd, he, t, ht, by simp_all⟩
      · rintro ⟨hmem, hd, he, t, ht, hpage, hpub, hlang⟩
        exact ⟨hmem, ⟨hd, he⟩, t, ht, by simp_all⟩

/-- C9: `on_site(site)` filters to the passed site when one is given; with no
site passed it filters to the current site when the resolver yields one, and
degrades to a null-site filter when the resolver reports no current site. -/
theorem on_site_spec (pages : List Page) (current site : Option Nat)
    (p : Page) :
    (∀ s, site = some s →
       (p ∈ on_site pages current site ↔ p ∈ pages ∧ p.site = some s)) ∧
    (site = none → ∀ c, current = some c →
       (p ∈ on_site pages current site ↔ p ∈ pages ∧ p.site = some c)) ∧
    (site = none → current = none →
       (p ∈ on_site pages current site ↔ p ∈ pages ∧ p.site = none)) := by
  refine ⟨?_, ?_, ?_⟩
  · rintro s rfl
    simp [on_site, List.mem_filter]
  · rintro rfl c rfl
    simp [on_site, List.mem_filter]
  · rintro rfl rfl
    simp [on_site, List.mem_filter]

/-- Witness for C9: with no site passed and no current site, a null-site page
passes the filter. -/
theorem on_site_spec_witness :
    pRoot ∈ on_site [pRoot] none none ↔ pRoot ∈ [pRoot] ∧ pRoot.site = none :=
  (on_site_spec [pRoot] none none pRoot).2.2 rfl rfl

/-- Counterexample to C6 as stated: `tPubUnpublished` has
`publisher_is_draft = false`, yet `public()` does not return it — `public()`
additionally demands `published = True`. -/
theorem public_filters_published_cex :
    tPubUnpublished.publisher_is_draft = false ∧
    publicTitles [tPubUnpublished] = [] :=
  ⟨rfl, rfl⟩

/-- C6 (amended): `public()` returns exactly the titles with
`publisher_is_draft` false and `published` true; `drafts()` returns exactly
the titles with `publisher_is_draft` true. -/
theorem public_drafts_spec (titles : List Title) (t : Title) :
    (t ∈ publicTitles titles ↔
       t ∈ titles ∧ t.publisher_is_draft = false ∧ t.published = true) ∧
    (t ∈ drafts titles ↔ t ∈ titles ∧ t.publisher_is_draft = true) := by
  constructor
  · simp [publicTitles, List.mem_filter]
  · simp [drafts, List.mem_filter]

/-- C7: `is_new_dirty()` is true on a record with no pk, and on a persisted
record exactly when one of the tracked fields {title, page_title, menu_title,
meta_description, slug, has_url_overwrite, redirect} differs from the stored
row. -/
theorem is_new_dirty_spec (db : Nat → Option Title) (t : Title) :
    (t.pk = none → is_new_dirty db t = true) ∧
    (∀ pk old, t.pk = some pk → db pk = some old →
       (is_new_dirty db t = true ↔
         (old.title ≠ t.title ∨ old.page_title ≠ t.page_title ∨
          old.menu_title ≠ t.menu_title ∨
          old.meta_description ≠ t.meta_description ∨ old.slug ≠ t.slug ∨
          old.has_url_overwrite ≠ t.has_url_overwrite ∨
          old.redirect ≠ t.redirect))) := by
  constructor
  · intro h
    simp [is_new_dirty, h]
  · intro pk old hpk hdb
    simp only [is_new_dirty, hpk, hdb, Bool.not_eq_true', Bool.and_eq_true,
      beq_iff_eq]
    constructor
    · intro h
      by_contra hc
      push_neg at hc
      simp_all
    · intro h
      rcases h with h | h | h | h | h | h | h <;> simp [h]

/-- Witness for C7: a slug change on a persisted row is dirty, an unchanged
row is not. -/
theorem is_new_dirty_spec_witness :
    (is_new_dirty (fun _ => none) { tEn with pk := none } = true) ∧
    (is_new_dirty (fun _ => some tEn) tEn = true ↔
      (tEn.title ≠ tEn.title ∨ tEn.page_title ≠ tEn.page_title ∨
       tEn.menu_title ≠ tEn.menu_title ∨
       tEn.meta_description ≠ tEn.meta_description ∨ tEn.slug ≠ tEn.slug ∨
       tEn.has_url_overwrite ≠ tEn.has_url_overwrite ∨
       tEn.redirect ≠ tEn.redirect)) :=
  ⟨(is_new_dirty_spec (fun _ => none) { tEn with pk := none }).1 rfl,
   (is_new_dirty_spec (fun _ => some tEn) tEn).2 10 tEn rfl rfl⟩

/-- C8: on save, a published title whose page lacks a `publication_date` gets
one backfilled 5 seconds in the past; a draft save that is not exempted by the
keep-state override and is new-or-dirty gets `publisher_state` set to the
dirty value. -/
theorem save_base_spec (t : Title) (page : Page) (db : Nat → Option Title)
    (keep_state : Bool) (now : Int) :
    (t.published = true → page.publication_date = none →
       (save_base t page db keep_state now).2.publication_date =
         some (now - 5)) ∧
    (t.publisher_is_draft = true → keep_state = false →
       is_new_dirty db t = true →
       (save_base t page db keep_state now).1.publisher_state =
         PUBLISHER_STATE_DIRTY) := by
  constructor
  · intro h1 h2
    simp [save_base, h1, h2]
  · intro h1 h2 h3
    simp [save_base, h1, h2, h3]

/-- Witness for C8: saving the unsaved draft `tEn` on `pRoot` (no publication
date) at time 100 backfills `95` and marks the title dirty. -/
theorem save_base_spec_witness :
    ((save_base { tEn with pk := none } pRoot (fun _ => none) false
        100).2.publication_date = some (100 - 5)) ∧
    ((save_base { tEn with pk := none } pRoot (fun _ => none) false
        100).1.publisher_state = PUBLISHER_STATE_DIRTY) :=
  ⟨(save_base_spec { tEn with pk := none } pRoot (fun _ => none) false
      100).1 rfl rfl,
   (save_base_spec { tEn with pk := none } pRoot (fun _ => none) false
      100).2 rfl rfl rfl⟩

theorem firstByPath_eq_none_iff (l : List Page) :
    firstByPath l = none ↔ l = [] := by
  induction l with
  | nil => simp [firstByPath]
  | cons p ps ih =>
      simp only [firstByPath]
      cases h : firstByPath ps <;> simp [h]
      split <;> simp

theorem firstByPath_min (l : List Page) (h : Page)
    (hfirst : firstByPath l = some h) :
    h ∈ l ∧ ∀ p ∈ l, h.path ≤ p.path := by
  induction l generalizing h with
  | nil => simp [firstByPath] at hfirst
  | cons p ps ih =>
      cases hr : firstByPath ps with
      | none =>
          simp only [firstByPath, hr] at hfirst
          injection hfirst with hq
          subst hq
          have : ps = [] := (firstByPath_eq_none_iff ps).1 hr
          subst this
          simp
      | some q =>
          simp only [firstByPath, hr] at hfirst
          obtain ⟨hqmem, hqmin⟩ := ih q hr
          by_cases hlt : q.path < p.path
          · rw [if_pos hlt] at hfirst
            injection hfirst with hq
            subst hq
            refine ⟨List.mem_cons_of_mem _ hqmem, ?_⟩
            intro x hx
            rcases List.mem_cons.1 hx with rfl | hx
            · exact le_of_lt hlt
            · exact hqmin x hx
          · rw [if_neg hlt] at hfirst
            injection hfirst with hq
            subst hq
            refine ⟨List.mem_cons_self _ _, ?_⟩
            intro x hx
            rcases List.mem_cons.1 hx with rfl | hx
            · exact le_refl _
            · exact le_trans (not_lt.1 hlt) (hqmin x hx)

/-- C5: `get_home(site)` returns a minimal-by-`path` member of the published
root pages, and raises the `NoHomeFound` error exactly when that set is
empty. -/
theorem get_home_spec (pages : List Page) (titles : List Title) (now : Int)
    (current : Option Nat) (site : Option Nat) :
    (all_root (published pages titles now current none site) = [] →
       get_home pages titles now current site =
         .error "No Root page found. Publish at least one page!") ∧
    (all_root (published pages titles now current none site) ≠ [] →
       ∃ home, get_home pages titles now current site = .ok home) ∧
    (∀ home, get_home pages titles now current site = .ok home →
       home ∈ all_root (published pages titles now current none site) ∧
       ∀ p ∈ all_root (published pages titles now current none site),
         home.path ≤ p.path) := by
  refine ⟨?_, ?_, ?_⟩
  · intro h
    simp [get_home, (firstByPath_eq_none_iff _).2 h]
  · intro h
    cases hf : firstByPath (all_root (published pages titles now current none site)) with
    | none => exact absurd ((firstByPath_eq_none_iff _).1 hf) h
    | some q => exact ⟨q, by simp [get_home, hf]⟩
  · intro home hok
    unfold get_home at hok
    cases hf : firstByPath (all_root (published pages titles now current none site)) with
    | none => rw [hf] at hok; cases hok
    | some q =>
        rw [hf] at hok
        cases hok
        exact firstByPath_min _ _ hf

/-- Witness for C5: with no pages at all, `get_home` raises `NoHomeFound`;
with the published root `pRoot` present, it returns it. -/
theorem get_home_spec_witness :
    (get_home [] [] 0 none none =
       .error "No Root page found. Publish at least one page!") ∧
    (get_home [pRoot] [tEn] 0 none none = .ok pRoot ∧
     pRoot ∈ all_root (published [pRoot] [tEn] 0 none none none)) :=
  ⟨(get_home_spec [] [] 0 none none).1 rfl,
   rfl,
   ((get_home_spec [pRoot] [tEn] 0 none none).2.2 pRoot rfl).1⟩

theorem findFirstFallback_eq_none_iff (ts : List Title) (chain : List String) :
    findFirstFallback ts chain = none ↔
      ∀ t ∈ ts, t.language ∉ chain := by
  induction chain with
  | nil => simp [findFirstFallback]
  | cons l rest ih =>
      simp only [findFirstFallback]
      cases hf : ts.find? (fun t => t.language == l) with
      | some t =>
          have ht : t ∈ ts := List.mem_of_find?_eq_some hf
          have hl : t.language = l := by
            have := List.find?_some hf
            simpa using this
          simp only [reduceCtorEq, false_iff, not_forall]
          exact ⟨t, ht, by simp [hl]⟩
      | none =>
          have hnol : ∀ t ∈ ts, t.language ≠ l := by
            intro t ht
            have := List.find?_eq_none.1 hf t ht
            simpa using this
          rw [ih]
          constructor
          · intro hall t ht
            simp only [List.mem_cons, not_or]
            exact ⟨hnol t ht, hall t ht⟩
          · intro hall t ht
            have := hall t ht
            simp only [List.mem_cons, not_or] at this
            exact this.2

theorem findFirstFallback_eq_some (ts : List Title) (chain : List String)
    (t : Title) (h : findFirstFallback ts chain = some t) :
    ∃ pre post, chain = pre ++ t.language :: post ∧
      ts.find? (fun u => u.language == t.language) = some t ∧
      ∀ l ∈ pre, ∀ u ∈ ts, u.language ≠ l := by
  induction chain with
  | nil => simp [findFirstFallback] at h
  | cons l rest ih =>
      simp only [findFirstFallback] at h
      cases hf : ts.find? (fun u => u.language == l) with
      | some u =>
          rw [hf] at h
          injection h with hu
          subst hu
          have hl : u.language = l := by
            have := List.find?_some hf
            simpa using this
          refine ⟨[], rest, by simp [hl], ?_, by simp⟩
          rw [hl]
          exact hf
      | none =>
          rw [hf] at h
          obtain ⟨pre, post, hchain, hfind, hpre⟩ := ih h
          refine ⟨l :: pre, post, by simp [hchain], hfind, ?_⟩
          intro l' hl' u hu
          rcases List.mem_cons.1 hl' with rfl | hl'
          · have := List.find?_eq_none.1 hf u hu
            simpa using this
          · exact hpre l' hl' u hu

/-- C2: `get_title` returns the exact `(page, language)` title when one
exists; on a miss with fallback the not-found failure never propagates and
the call returns the first of the page's titles whose language comes earliest
in the fallback chain (`None` when no title's language is in the chain); on a
miss without fallback the `DoesNotExist` propagates. -/
theorem get_title_spec (titles : List Title) (fallbacks : String → List String)
    (pageId : Nat) (language : String) :
    (∀ fb t, managerGet titles pageId language = some t →
       get_title titles fallbacks pageId language fb = .ok (some t)) ∧
    (managerGet titles pageId language = none →
       get_title titles fallbacks pageId language false = .error ()) ∧
    (managerGet titles pageId language = none →
       (get_title titles fallbacks pageId language true ≠ .error () ∧
        (get_title titles fallbacks pageId language true = .ok none ↔
          ∀ t ∈ titles, t.page = pageId → t.language ∉ fallbacks language) ∧
        (∀ t, get_title titles fallbacks pageId language true = .ok (some t) →
           t ∈ titles ∧ t.page = pageId ∧
           ∃ pre post, fallbacks language = pre ++ t.language :: post ∧
             (titles.filter (fun u => u.page == pageId)).find?
               (fun u => u.language == t.language) = some t ∧
             ∀ l ∈ pre, ∀ u ∈ titles, u.page = pageId →
               u.language ≠ l))) := by
  refine ⟨?_, ?_, ?_⟩
  · intro fb t h
    simp [get_title, h]
  · intro h
    simp [get_title, h]
  · intro h
    refine ⟨by simp [get_title, h], ?_, ?_⟩
    · rw [show get_title titles fallbacks pageId language true =
          .ok (findFirstFallback (titles.filter (fun t => t.page == pageId))
                (fallbacks language)) by simp [get_title, h]]
      simp only [Except.ok.injEq]
      rw [findFirstFallback_eq_none_iff]
      constructor
      · intro hall t ht hp
        exact hall t (List.mem_filter.2 ⟨ht, by simp [hp]⟩)
      · intro hall t ht
        have := List.mem_filter.1 ht
        exact hall t this.1 (by simpa using this.2)
    · intro t hok
      rw [show get_title titles fallbacks pageId language true =
          .ok (findFirstFallback (titles.filter (fun t => t.page == pageId))
                (fallbacks language)) by simp [get_title, h]] at hok
      simp only [Except.ok.injEq] at hok
      obtain ⟨pre, post, hchain, hfind, hpre⟩ :=
        findFirstFallback_eq_some _ _ _ hok
      have htmem := List.mem_filter.1 (List.mem_of_find?_eq_some hfind)
      refine ⟨htmem.1, by simpa using htmem.2, pre, post, hchain, hfind, ?_⟩
      intro l hl u hu hup
      exact hpre l hl u (List.mem_filter.2 ⟨hu, by simp [hup]⟩)

/-- Witness for C2: page 1 has only the English title `tEn`; a German lookup
without fallback raises, while with fallback(-chain `["en"]`) the failure
does not propagate and the call returns `tEn`. -/
theorem get_title_spec_witness :
    get_title [tEn] fbEn 1 "de" false = .error () ∧
    get_title [tEn] fbEn 1 "de" true ≠ .error () ∧
    get_title [tEn] fbEn 1 "de" true = .ok (some tEn) :=
  ⟨(get_title_spec [tEn] fbEn 1 "de").2.1 rfl,
   ((get_title_spec [tEn] fbEn 1 "de").2.2 rfl).1, rfl⟩

/-- C3: `update_path()` leaves a title with `has_url_overwrite` untouched;
otherwise it sets `path` to `{parent_title.path}/{slug}` when the page has a
parent with a (fallback-)resolvable title, and to the bare slug when the page
is a root or the parent's title cannot be resolved. -/
theorem update_path_spec (t : Title) (page : Page) (allTitles : List Title)
    (fallbacks : String → List String) :
    (t.has_url_overwrite = true →
       update_path t page allTitles fallbacks = t) ∧
    (t.has_url_overwrite = false → page.parent_id = none →
       (update_path t page allTitles fallbacks).path = some (pyStr t.slug)) ∧
    (t.has_url_overwrite = false → ∀ pid, page.parent_id = some pid →
       (∀ pt, get_title allTitles fallbacks pid t.language true =
                .ok (some pt) →
          (update_path t page allTitles fallbacks).path =
            some (pyStr pt.path ++ "/" ++ pyStr t.slug)) ∧
       (get_title allTitles fallbacks pid t.language true = .ok none →
          (update_path t page allTitles fallbacks).path =
            some (pyStr t.slug))) := by
  refine ⟨?_, ?_, ?_⟩
  · intro h
    simp [update_path, h]
  · intro h hp
    simp [update_path, h, hp]
  · intro h pid hp
    constructor
    · intro pt hres
      simp [update_path, h, hp, hres]
    · intro hres
      simp [update_path, h, hp, hres]

/-- Witness for C3: recomputing `tEn`'s path as a title of the child page
`pChild` whose parent's titles are `[tEn]` yields `home/home`; as a root-page
title with no parent it yields the bare slug; with `has_url_overwrite` the
title is untouched. -/
theorem update_path_spec_witness :
    (update_path { tEn with has_url_overwrite := true } pRoot [] fbEn =
       { tEn with has_url_overwrite := true }) ∧
    ((update_path tEn pRoot [] fbEn).path = some (pyStr tEn.slug)) ∧
    ((update_path tEn pChild [tEn] fbEn).path =
       some (pyStr tEn.path ++ "/" ++ pyStr tEn.slug)) :=
  ⟨(update_path_spec { tEn with has_url_overwrite := true } pRoot []
      fbEn).1 rfl,
   (update_path_spec tEn pRoot [] fbEn).2.1 rfl rfl,
   ((update_path_spec tEn pChild [tEn] fbEn).2.2 rfl 1 rfl).1 tEn rfl⟩

theorem foldl_preserves {α β γ : Type} (g : α → γ) (f : α → β → α)
    (hf : ∀ a b, g (f a b) = g a) (l : List β) (a : α) :
    g (l.foldl f a) = g a := by
  induction l generalizing a with
  | nil => rfl
  | cons b bs ih => rw [List.foldl_cons, ih, hf]

theorem setTitleAttr_slug (obj : Title) (name : String) (v : Option String)
    (h : name ≠ "slug") : (setTitleAttr obj name v).slug = obj.slug := by
  unfold setTitleAttr
  split <;> simp_all

theorem setTitleAttr_title (obj : Title) (name : String) (v : Option String)
    (h : name ≠ "title") : (setTitleAttr obj name v).title = obj.title := by
  unfold setTitleAttr
  split <;> simp_all

theorem setTitleAttr_meta (obj : Title) (name : String) (v : Option String)
    (h : name ≠ "meta_description") :
    (setTitleAttr obj name v).meta_description = obj.meta_description := by
  unfold setTitleAttr
  split <;> simp_all

theorem setTitleAttr_pt (obj : Title) (name : String) (v : Option String)
    (h : name ≠ "page_title") :
    (setTitleAttr obj name v).page_title = obj.page_title := by
  unfold setTitleAttr
  split <;> simp_all

theorem setTitleAttr_mt (obj : Title) (name : String) (v : Option String)
    (h : name ≠ "menu_title") :
    (setTitleAttr obj name v).menu_title = obj.menu_title := by
  unfold setTitleAttr
  split <;> simp_all

theorem setTitleAttr_redirect (obj : Title) (name : String) (v : Option String)
    (h : name ≠ "redirect") :
    (setTitleAttr obj name v).redirect = obj.redirect := by
  unfold setTitleAttr
  split <;> simp_all

theorem setTitleAttr_path (obj : Title) (name : String) (v : Option String) :
    (setTitleAttr obj name v).path = obj.path := by
  unfold setTitleAttr
  split <;> rfl

theorem setTitleAttr_huo (obj : Title) (name : String) (v : Option String) :
    (setTitleAttr obj name v).has_url_overwrite = obj.has_url_overwrite := by
  unfold setTitleAttr
  split <;> rfl

theorem updStep_slug (form : Form) (h : "slug" ∉ form.base_fields)
    (obj : Title) (name : String) : (updStep form obj name).slug = obj.slug := by
  unfold updStep
  split
  · exact setTitleAttr_slug _ _ _ (fun e => h (e ▸ ‹name ∈ form.base_fields›))
  · rfl

theorem updStep_title (form : Form) (h : "title" ∉ form.base_fields)
    (obj : Title) (name : String) :
    (updStep form obj name).title = obj.title := by
  unfold updStep
  split
  · exact setTitleAttr_title _ _ _ (fun e => h (e ▸ ‹name ∈ form.base_fields›))
  · rfl

theorem updStep_meta (form : Form) (h : "meta_description" ∉ form.base_fields)
    (obj : Title) (name : String) :
    (updStep form obj name).meta_description = obj.meta_description := by
  unfold updStep
  split
  · exact setTitleAttr_meta _ _ _ (fun e => h (e ▸ ‹name ∈ form.base_fields›))
  · rfl

theorem updStep_pt (form : Form) (h : "page_title" ∉ form.base_fields)
    (obj : Title) (name : String) :
    (updStep form obj name).page_title = obj.page_title := by
  unfold updStep
  split
  · exact setTitleAttr_pt _ _ _ (fun e => h (e ▸ ‹name ∈ form.base_fields›))
  · rfl

theorem updStep_mt (form : Form) (h : "menu_title" ∉ form.base_fields)
    (obj : Title) (name : String) :
    (updStep form obj name).menu_title = obj.menu_title := by
  unfold updStep
  split
  · exact setTitleAttr_mt _ _ _ (fun e => h (e ▸ ‹name ∈ form.base_fields›))
  · rfl

theorem updStep_redirect (form : Form) (h : "redirect" ∉ form.base_fields)
    (obj : Title) (name : String) :
    (updStep form obj name).redirect = obj.redirect := by
  unfold updStep
  split
  · exact setTitleAttr_redirect _ _ _
      (fun e => h (e ▸ ‹name ∈ form.base_fields›))
  · rfl

theorem updStep_path (form : Form) (obj : Title) (name : String) :
    (updStep form obj name).path = obj.path := by
  unfold updStep
  split
  · exact setTitleAttr_path _ _ _
  · rfl

theorem updStep_huo (form : Form) (obj : Title) (name : String) :
    (updStep form obj name).has_url_overwrite = obj.has_url_overwrite := by
  unfold updStep
  split
  · exact setTitleAttr_huo _ _ _
  · rfl

/-- C4: updating an existing `(page, language)` title through `set_or_create`
never overwrites a base or advanced field that is absent from the form's
declared fields (`form.base_fields`). -/
theorem set_or_create_update_frame (hasAdvPerm : Bool) (form : Form)
    (obj : Title) :
    ("slug" ∉ form.base_fields →
       (set_or_create_update hasAdvPerm form obj).slug = obj.slug) ∧
    ("title" ∉ form.base_fields →
       (set_or_create_update hasAdvPerm form obj).title = obj.title) ∧
    ("meta_description" ∉ form.base_fields →
       (set_or_create_update hasAdvPerm form obj).meta_description =
         obj.meta_description) ∧
    ("page_title" ∉ form.base_fields →
       (set_or_create_update hasAdvPerm form obj).page_title =
         obj.page_title) ∧
    ("menu_title" ∉ form.base_fields →
       (set_or_create_update hasAdvPerm form obj).menu_title =
         obj.menu_title) ∧
    ("redirect" ∉ form.base_fields →
       (set_or_create_update hasAdvPerm form obj).redirect = obj.redirect) := by
  unfold set_or_create_update
  cases hasAdvPerm with
  | false =>
      simp only [Bool.false_eq_true, if_false]
      exact ⟨fun h => foldl_preserves _ _ (updStep_slug form h) _ _,
             fun h => foldl_preserves _ _ (updStep_title form h) _ _,
             fun h => foldl_preserves _ _ (updStep_meta form h) _ _,
             fun h => foldl_preserves _ _ (updStep_pt form h) _ _,
             fun h => foldl_preserves _ _ (updStep_mt form h) _ _,
             fun h => foldl_preserves _ _ (updStep_redirect form h) _ _⟩
  | true =>
      simp only [if_true]
      refine ⟨?_, ?_, ?_, ?_, ?_, ?_⟩ <;> intro h
      · rw [foldl_preserves _ _ (updStep_slug form h)]
        split
        · exact foldl_preserves _ _ (updStep_slug form h) _ _
        · exact foldl_preserves _ _ (updStep_slug form h) _ _
      · rw [foldl_preserves _ _ (updStep_title form h)]
        split
        · exact foldl_preserves _ _ (updStep_title form h) _ _
        · exact foldl_preserves _ _ (updStep_title form h) _ _
      · rw [foldl_preserves _ _ (updStep_meta form h)]
        split
        · exact foldl_preserves _ _ (updStep_meta form h) _ _
        · exact foldl_preserves _ _ (updStep_meta form h) _ _
      · rw [foldl_preserves _ _ (updStep_pt form h)]
        split
        · exact foldl_preserves _ _ (updStep_pt form h) _ _
        · exact foldl_preserves _ _ (updStep_pt form h) _ _
      · rw [foldl_preserves _ _ (updStep_mt form h)]
        split
        · exact foldl_preserves _ _ (updStep_mt form h) _ _
        · exact foldl_preserves _ _ (updStep_mt form h) _ _
      · rw [foldl_preserves _ _ (updStep_redirect form h)]
        split
        · exact foldl_preserves _ _ (updStep_redirect form h) _ _
        · exact foldl_preserves _ _ (updStep_redirect form h) _ _

/-- A form declaring no fields, whose submitted data nevertheless contains
values. -/
def emptyDeclForm : Form :=
  { base_fields := [],
    cleaned_data := [("slug", some "evil"), ("redirect", some "/x")] }

/-- Witness for C4: with no declared fields, every tracked field of `tEn`
survives the update even though `cleaned_data` holds values for some. -/
theorem set_or_create_update_frame_witness :
    (set_or_create_update true emptyDeclForm tEn).slug = tEn.slug ∧
    (set_or_create_update true emptyDeclForm tEn).title = tEn.title ∧
    (set_or_create_update true emptyDeclForm tEn).meta_description =
      tEn.meta_description ∧
    (set_or_create_update true emptyDeclForm tEn).page_title =
      tEn.page_title ∧
    (set_or_create_update true emptyDeclForm tEn).menu_title =
      tEn.menu_title ∧
    (set_or_create_update true emptyDeclForm tEn).redirect = tEn.redirect :=
  ⟨(set_or_create_update_frame true emptyDeclForm tEn).1 (by simp [emptyDeclForm]),
   (set_or_create_update_frame true emptyDeclForm tEn).2.1 (by simp [emptyDeclForm]),
   (set_or_create_update_frame true emptyDeclForm tEn).2.2.1 (by simp [emptyDeclForm]),
   (set_or_create_update_frame true emptyDeclForm tEn).2.2.2.1 (by simp [emptyDeclForm]),
   (set_or_create_update_frame true emptyDeclForm tEn).2.2.2.2.1 (by simp [emptyDeclForm]),
   (set_or_create_update_frame true emptyDeclForm tEn).2.2.2.2.2 (by simp [emptyDeclForm])⟩

/-- C10: on an update with advanced-settings permission, a falsy
(`None`/empty) `overwrite_url` present in `cleaned_data` sets
`has_url_overwrite` to false and unconditionally assigns that value to
`path`, clobbering the stored path. -/
theorem set_or_create_update_overwrite_empty (form : Form) (obj : Title)
    (v : Option String)
    (hlk : form.cleaned_data.lookup "overwrite_url" = some v)
    (hempty : pyTruthy v = false) :
    (set_or_create_update true form obj).has_url_overwrite = false ∧
    (set_or_create_update true form obj).path = v := by
  unfold set_or_create_update
  simp only [if_true]
  have hhas : cdHas form.cleaned_data "overwrite_url" = true := by
    simp [cdHas, hlk]
  have hget : cdGet form.cleaned_data "overwrite_url" = v := by
    simp [cdGet, hlk]
  constructor
  · rw [foldl_preserves _ _ (updStep_huo form)]
    simp [hhas, hget, hempty]
  · rw [foldl_preserves _ _ (updStep_path form)]
    simp [hhas, hget]

/-- The stored title C10's witness updates: it has an overwritten path. -/
def tOverwritten : Title :=
  { tEn with has_url_overwrite := true, path := some "old/url" }

/-- A form submitting an empty `overwrite_url`. -/
def clearUrlForm : Form :=
  { base_fields := [], cleaned_data := [("overwrite_url", some "")] }

/-- Witness for C10: submitting an empty `overwrite_url` clears
`tOverwritten`'s flag and replaces its stored path by the empty string. -/
theorem set_or_create_update_overwrite_empty_witness :
    (set_or_create_update true clearUrlForm tOverwritten).has_url_overwrite =
      false ∧
    (set_or_create_update true clearUrlForm tOverwritten).path = some "" :=
  set_or_create_update_overwrite_empty clearUrlForm tOverwritten (some "")
    rfl rfl

end Cms
